import Mathlib

/-!
Shallow embedding of two components of the repository:

* `src/packages/core/src/model/Artifact.ts` — an abstract base entity for
  typed base64-encoded payloads, with a closed registry of variant names,
  construction-time base64 validation and a JSON envelope round trip.
* `src/packages/rest/src/screenplay/abilities/CallAnApi.ts` — an ability that
  wraps an HTTP transport, caches the single most recent response and
  classifies transport rejections into a fixed error taxonomy.

JavaScript strings are modelled as `String`, regular-expression tests as
executable Boolean functions on `List Char`, thrown errors as `Except`
results, and the mutable `lastResponse` slot as explicit state passing.
-/

/-! ## Generic string-searching helpers (model of JavaScript `RegExp.test`) -/

/-- Character class `[A-Za-z0-9+/]` of the base64 validation regex. -/
def isB64Char (c : Char) : Bool :=
  (decide ('A' ≤ c) && decide (c ≤ 'Z')) ||
  (decide ('a' ≤ c) && decide (c ≤ 'z')) ||
  (decide ('0' ≤ c) && decide (c ≤ '9')) ||
  c == '+' || c == '/'

/-- Anchored-at-the-start match of a literal pattern against a string. -/
def startsWith : List Char → List Char → Bool
  | [], _ => true
  | _ :: _, [] => false
  | c :: cs, d :: ds => c == d && startsWith cs ds

/-- Unanchored substring test: `containsSubstring pat s` holds iff `pat`
occurs contiguously in `s`.  Models `/pat/.test(s)` for a literal pattern. -/
def containsSubstring (pat : List Char) : List Char → Bool
  | [] => startsWith pat []
  | c :: cs => startsWith pat (c :: cs) || containsSubstring pat cs

/-- JavaScript LineTerminator class: LF, CR, LINE SEPARATOR (U+2028) and
PARAGRAPH SEPARATOR (U+2029).  Without the `s` flag, `.` in a JavaScript
regular expression matches any character except these four. -/
def isLineTerminator (c : Char) : Bool :=
  c == '\n' || c == '\r' || c == '\u2028' || c == '\u2029'

/-- Search for the literal `"exceeded"` preceded by any run of
characters matched by `.`: the `.*exceeded` tail of `/timeout.*exceeded/`
(in JavaScript `.` matches any character except a LineTerminator). -/
def exceededAfterAnyChars : List Char → Bool
  | [] => false
  | c :: cs =>
      startsWith "exceeded".toList (c :: cs) ||
      (!isLineTerminator c && exceededAfterAnyChars cs)

/-- Model of `/timeout.*exceeded/.test(s)`: some occurrence of `"timeout"`
is followed, with no intervening LineTerminator, by `"exceeded"`. -/
def timeoutExceededTest : List Char → Bool
  | [] => false
  | c :: cs =>
      (startsWith "timeout".toList (c :: cs)
        && exceededAfterAnyChars (List.drop 7 (c :: cs)))
      || timeoutExceededTest cs

/-- Model of `/Network Error/.test(s)`. -/
def networkErrorTest (s : List Char) : Bool :=
  containsSubstring "Network Error".toList s

/-! ## Artifact model (`src/packages/core/src/model/Artifact.ts`) -/

/-- Model of the `looksLikeBase64Encoded` predicate: the anchored regex
`([A-Za-z0-9+/]{4})*([A-Za-z0-9+/]{4}|[A-Za-z0-9+/]{3}=|[A-Za-z0-9+/]{2}==)`
matched against the whole string.  A match is zero or more plain quartets
followed by exactly one final quartet that is four plain characters, three
plain characters and `=`, or two plain characters and `==`. -/
def looksLikeBase64Encoded : List Char → Bool
  | [a, b, c, d] =>
      isB64Char a && isB64Char b &&
        ((isB64Char c && (isB64Char d || d == '=')) || (c == '=' && d == '='))
  | a :: b :: c :: d :: e :: rest =>
      isB64Char a && isB64Char b && isB64Char c && isB64Char d &&
        looksLikeBase64Encoded (e :: rest)
  | _ => false

/-- Model of the serialised envelope `SerialisedArtifact`. -/
structure SerialisedArtifact where
  type : String
  base64EncodedValue : String
  deriving Repr, DecidableEq

/-- Model of a constructed `Artifact` instance.  Concrete variants differ
only in the name reported by `this.constructor.name` (and in how `map`
decodes the payload, which no claim depends on), so an instance is its
variant name together with its `base64EncodedValue`. -/
structure Artifact where
  type : String
  base64EncodedValue : String
  deriving Repr, DecidableEq

/-- Errors thrown by the artifact model: the `ensure ... looksLikeBase64Encoded()`
validation failure of the constructor, and the `LogicError` of `fromJSON`. -/
inductive ArtifactError where
  | validationError (constructorName : String) (value : String)
  | logicError (message : String)
  deriving Repr, DecidableEq

/-- Model of JavaScript `Array.prototype.join(', ')` as used on
`recognisedTypes` in `Artifact.fromJSON`. -/
def joinCommaSpace : List String → String
  | [] => ""
  | [t] => t
  | t :: u :: rest => t ++ ", " ++ joinCommaSpace (u :: rest)

/-- The message of the `LogicError` thrown by `Artifact.fromJSON` for an
unrecognised type, replicating the template literal of the source. -/
def unknownTypeMessage (type : String) (recognisedTypes : List String) : String :=
  "\n                Couldn\x27t de-serialise artifact of an unknown type.\n                "
    ++ type ++ " is not one of the recognised types: "
    ++ joinCommaSpace recognisedTypes
    ++ "\n           "

/-- Modelled from the spec: the `artifacts` module
(`src/packages/core/src/model/artifacts`, not among the provided sources) is a
closed, statically-known set of concrete variants; `Object.keys(artifacts)`
yields their names.  The registry is therefore passed around as the list of
registered variant names, and a variant constructor is identified by its name. -/
abbrev ArtifactRegistry := List String

/-- Model of the `Artifact` constructor: `ensure` validates
`base64EncodedValue` with `looksLikeBase64Encoded` on every instantiation and
throws a validation error when the check fails. -/
def mkArtifact (constructorName : String) (base64EncodedValue : String) :
    Except ArtifactError Artifact :=
  if looksLikeBase64Encoded base64EncodedValue.toList then
    Except.ok { type := constructorName, base64EncodedValue := base64EncodedValue }
  else
    Except.error (ArtifactError.validationError constructorName base64EncodedValue)

/-- Model of `Artifact.ofType`: `Object.keys(artifacts).find(n => n === name)`
followed by the lookup `artifacts[type]`.  When no key matches, the lookup of
`undefined` yields `undefined`; the found constructor is identified by its
name. -/
def Artifact.ofType (registry : ArtifactRegistry) (name : String) : Option String :=
  registry.find? (fun constructorName => constructorName == name)

/-- Model of `Artifact.toJSON`. -/
def Artifact.toJSON (a : Artifact) : SerialisedArtifact :=
  { type := a.type, base64EncodedValue := a.base64EncodedValue }

/-- Model of `Artifact.fromJSON`: look the envelope type up in the registry,
throw a `LogicError` naming the unknown type and the recognised types when it
is absent, and otherwise invoke the found constructor (which re-validates). -/
def Artifact.fromJSON (registry : ArtifactRegistry) (o : SerialisedArtifact) :
    Except ArtifactError Artifact :=
  match Artifact.ofType registry o.type with
  | none => Except.error (ArtifactError.logicError (unknownTypeMessage o.type registry))
  | some type => mkArtifact type o.base64EncodedValue

/-! ## CallAnApi model (`src/packages/rest/src/screenplay/abilities/CallAnApi.ts`) -/

/-- Model of an `AxiosResponse`: the claims only observe the HTTP status and
an opaque body. -/
structure AxiosResponse where
  status : Nat
  data : String
  deriving Repr, DecidableEq

/-- Model of a transport rejection value as consumed by `captureResponseOf`:
an error object exposing a `message`, possibly being a `TypeError`, and
possibly carrying an HTTP `response` (the `AxiosError` shape). -/
structure AxiosRejection where
  message : String
  isTypeError : Bool
  response : Option AxiosResponse
  deriving Repr, DecidableEq

/-- A settled transport promise: fulfilled with a response or rejected. -/
inductive PromiseOutcome where
  | fulfilled (response : AxiosResponse)
  | rejected (error : AxiosRejection)
  deriving Repr, DecidableEq

/-- Errors surfaced by the ability: `TestCompromisedError` and `LogicError`,
each with its message and, when rethrowing a rejection, its cause. -/
inductive CallError where
  | testCompromised (message : String) (cause : Option AxiosRejection)
  | logicError (message : String) (cause : Option AxiosRejection)
  deriving Repr, DecidableEq

/-- Model of an Axios request configuration: the fields the ability's factory
and the claims touch (base URL, timeout in milliseconds, headers as an
association list in insertion order). -/
structure AxiosRequestConfig where
  baseURL : Option String
  timeout : Option Nat
  headers : List (String × String)
  deriving Repr, DecidableEq

/-- The all-absent request configuration, the model of `{}`. -/
def emptyConfig : AxiosRequestConfig :=
  { baseURL := none, timeout := none, headers := [] }

/-- Model of the JavaScript property write `cfg.headers[k] = v`: overwrite the
entry for `k` when present, otherwise append it. -/
def setHeader (cfg : AxiosRequestConfig) (k v : String) : AxiosRequestConfig :=
  { cfg with
    headers :=
      if cfg.headers.any (fun p => p.1 == k) then
        cfg.headers.map (fun p => if p.1 == k then (k, v) else p)
      else
        cfg.headers ++ [(k, v)] }

/-- Header lookup in an effective configuration. -/
def getHeader (cfg : AxiosRequestConfig) (k : String) : Option String :=
  (cfg.headers.find? (fun p => p.1 == k)).map (fun p => p.2)

/-- Modelled from the spec: the transport (the external Axios client, §6)
merges the per-call configuration over its defaults, explicit per-call fields
winning; headers merge per key with per-call entries winning (§4.1
`request(config)`). -/
def mergeConfig (defaults config : AxiosRequestConfig) : AxiosRequestConfig :=
  { baseURL := match config.baseURL with
      | some b => some b
      | none => defaults.baseURL
    timeout := match config.timeout with
      | some t => some t
      | none => defaults.timeout
    headers :=
      config.headers ++
        defaults.headers.filter (fun p => !(config.headers.any (fun q => q.1 == p.1))) }

/-- Modelled from the spec: an Axios instance is the transport handle
carrying its default configuration (`axios.create(config)` returns an
instance whose defaults are `config`; `instance.defaults` exposes them). -/
structure AxiosInstance where
  defaults : AxiosRequestConfig
  deriving Repr, DecidableEq

/-- Modelled from the spec: `instance.request(config)` issues one transport
call with the per-call config merged over the instance defaults; the
transport's behaviour is abstracted as a function from the effective
configuration to a settled promise. -/
def AxiosInstance.request (instance' : AxiosInstance)
    (transport : AxiosRequestConfig → PromiseOutcome)
    (config : AxiosRequestConfig) : PromiseOutcome :=
  transport (mergeConfig instance'.defaults config)

/-- Model of the `CallAnApi` ability state: the wrapped Axios instance and
the single `lastResponse` slot (`undefined` until a call completes). -/
structure CallAnApi where
  axiosInstance : AxiosInstance
  lastResponse : Option AxiosResponse
  deriving Repr, DecidableEq

/-- Model of `CallAnApi.at(baseURL)` (`at` is a Lean keyword, hence renamed):
wraps `axios.create` with the given base URL, a 2000 ms timeout and the
default `Accept` header; the private constructor leaves `lastResponse`
undefined. -/
def CallAnApi.atBaseURL (baseURL : String) : CallAnApi :=
  { axiosInstance :=
      { defaults :=
          { baseURL := some baseURL
            timeout := some 2000
            headers := [("Accept", "application/json,application/xml")] } }
    lastResponse := none }

/-- Model of `CallAnApi.using(axiosInstance)`: wraps the supplied instance
verbatim. -/
def CallAnApi.using (axiosInstance : AxiosInstance) : CallAnApi :=
  { axiosInstance := axiosInstance, lastResponse := none }

/-- Model of `modifyConfig(fn)`: applies `fn` to the instance defaults in
place.  The in-place mutation is modelled by returning the updated ability;
the source returns no value. -/
def CallAnApi.modifyConfig (api : CallAnApi)
    (fn : AxiosRequestConfig → AxiosRequestConfig) : CallAnApi :=
  { api with axiosInstance := { defaults := fn api.axiosInstance.defaults } }

/-- Model of the private `captureResponseOf`, the failure-classification
algorithm: on fulfilment cache and return the response; on rejection run the
`switch (true)` cascade in source order — timeout pattern, network-error
pattern, `instanceof TypeError`, missing `response` — rethrowing a classified
error, and otherwise cache and return the rejection's response.  The first
component is the settled result, the second the `lastResponse` slot after the
call. -/
def captureResponseOf (lastResponse : Option AxiosResponse) :
    PromiseOutcome → Except CallError AxiosResponse × Option AxiosResponse
  | PromiseOutcome.fulfilled r => (Except.ok r, some r)
  | PromiseOutcome.rejected rejected =>
      if timeoutExceededTest rejected.message.toList then
        (Except.error (CallError.testCompromised "The request has timed out" (some rejected)),
         lastResponse)
      else if networkErrorTest rejected.message.toList then
        (Except.error (CallError.testCompromised "A network error has occurred" (some rejected)),
         lastResponse)
      else if rejected.isTypeError then
        (Except.error
          (CallError.logicError "Looks like there was an issue with Axios configuration"
            (some rejected)),
         lastResponse)
      else
        match rejected.response with
        | none =>
            (Except.error (CallError.testCompromised "The API call has failed" (some rejected)),
             lastResponse)
        | some r => (Except.ok r, some r)

/-- Model of `request(config)`: issue the transport call through the wrapped
instance and pipe the settled promise through `captureResponseOf`. -/
def CallAnApi.request (api : CallAnApi)
    (transport : AxiosRequestConfig → PromiseOutcome)
    (config : AxiosRequestConfig) : Except CallError AxiosResponse × CallAnApi :=
  match captureResponseOf api.lastResponse (api.axiosInstance.request transport config) with
  | (result, last) => (result, { api with lastResponse := last })

/-- Model of `mapLastResponse(fn)`: a synchronous read of the cached
`lastResponse`; throws a `LogicError` when no call has been made. -/
def CallAnApi.mapLastResponse {T : Type} (api : CallAnApi)
    (fn : AxiosResponse → T) : Except CallError T :=
  match api.lastResponse with
  | none =>
      Except.error
        (CallError.logicError "Make sure to perform a HTTP API call before checking on the response"
          none)
  | some r => Except.ok (fn r)

/-! ## Helper lemmas -/

theorem startsWith_append (p b : List Char) : startsWith p (p ++ b) = true := by
  induction p with
  | nil => rfl
  | cons c cs ih => simp [startsWith, ih]

theorem containsSubstring_of_startsWith (p l : List Char) (h : startsWith p l = true) :
    containsSubstring p l = true := by
  cases l with
  | nil => simpa [containsSubstring] using h
  | cons c cs => simp [containsSubstring, h]

theorem containsSubstring_cons (p l : List Char) (c : Char)
    (h : containsSubstring p l = true) : containsSubstring p (c :: l) = true := by
  simp [containsSubstring, h]

theorem containsSubstring_append_left (p x l : List Char)
    (h : containsSubstring p l = true) : containsSubstring p (x ++ l) = true := by
  induction x with
  | nil => simpa using h
  | cons c cs ih => simpa using containsSubstring_cons p (cs ++ l) c ih

theorem containsSubstring_split (p a b : List Char) :
    containsSubstring p (a ++ (p ++ b)) = true :=
  containsSubstring_append_left p a (p ++ b)
    (containsSubstring_of_startsWith p (p ++ b) (startsWith_append p b))

theorem ofType_eq_ite (registry : ArtifactRegistry) (name : String) :
    Artifact.ofType registry name = if name ∈ registry then some name else none := by
  induction registry with
  | nil => simp [Artifact.ofType]
  | cons x xs ih =>
    by_cases hx : x = name
    · subst hx
      simp [Artifact.ofType, List.find?]
    · have hx' : (x == name) = false := by simp [hx]
      have h1 : Artifact.ofType (x :: xs) name = Artifact.ofType xs name := by
        simp [Artifact.ofType, List.find?, hx']
      rw [h1, ih]
      by_cases hmem : name ∈ xs
      · rw [if_pos hmem, if_pos (List.mem_cons_of_mem x hmem)]
      · have hnot : ¬ name ∈ x :: xs := by
          rw [List.mem_cons]
          rintro (h | h)
          · exact hx h.symm
          · exact hmem h
        rw [if_neg hmem, if_neg hnot]

/-- C10: `Artifact.ofType` returns the registered variant constructor exactly
when the name matches a registered variant name case-sensitively, and
`undefined` (here `none`) otherwise; being a total function, it never
throws. -/
theorem claim_C10 (registry : ArtifactRegistry) (name : String) :
    Artifact.ofType registry name = if name ∈ registry then some name else none :=
  ofType_eq_ite registry name

/-- C7: `at(baseURL)` wraps a transport configured with the given base URL,
a 2000 ms timeout and the default `Accept: application/json,application/xml`
header, while `using(transport)` wraps the supplied transport verbatim with
no defaults applied; both start with no cached response. -/
theorem claim_C7 (baseURL : String) (axiosInstance : AxiosInstance) :
    CallAnApi.atBaseURL baseURL =
      { axiosInstance :=
          { defaults :=
              { baseURL := some baseURL
                timeout := some 2000
                headers := [("Accept", "application/json,application/xml")] } }
        lastResponse := none } ∧
    CallAnApi.using axiosInstance =
      { axiosInstance := axiosInstance, lastResponse := none } :=
  ⟨rfl, rfl⟩

/-- C9: constructing any artifact variant with the empty string throws a
validation error, because the validation regex demands at least one final
quartet and therefore rejects the empty string. -/
theorem claim_C9 (constructorName : String) :
    mkArtifact constructorName "" =
      Except.error (ArtifactError.validationError constructorName "") ∧
    looksLikeBase64Encoded "".toList = false :=
  ⟨rfl, rfl⟩

/-- C6: `mapLastResponse` throws the `LogicError` asking for a prior call
whenever `lastResponse` is unset — in particular on a freshly built ability,
whether built by `at` or by `using` — and once a `lastResponse` is stored it
synchronously returns `fn` applied to it, without touching the transport. -/
theorem claim_C6 {T : Type} (fn : AxiosResponse → T) (baseURL : String)
    (axiosInstance : AxiosInstance) (api : CallAnApi) (r : AxiosResponse) :
    (CallAnApi.atBaseURL baseURL).mapLastResponse fn =
      Except.error
        (CallError.logicError "Make sure to perform a HTTP API call before checking on the response"
          none) ∧
    (CallAnApi.using axiosInstance).mapLastResponse fn =
      Except.error
        (CallError.logicError "Make sure to perform a HTTP API call before checking on the response"
          none) ∧
    (api.lastResponse = some r → api.mapLastResponse fn = Except.ok (fn r)) := by
  refine ⟨rfl, rfl, fun h => ?_⟩
  simp [CallAnApi.mapLastResponse, h]

/-- Witness for C6 at a concrete stored response. -/
theorem claim_C6_witness :
    ({ axiosInstance := { defaults := emptyConfig },
       lastResponse := some { status := 200, data := "ok" } } : CallAnApi).mapLastResponse
        (fun r => r.status) = Except.ok 200 :=
  (claim_C6 (fun r => r.status) "" { defaults := emptyConfig }
    { axiosInstance := { defaults := emptyConfig },
      lastResponse := some { status := 200, data := "ok" } }
    { status := 200, data := "ok" }).2.2 rfl

/-- C4: the artifact constructor validates eagerly on every instantiation:
it succeeds exactly on strings accepted by the base64 quartet-grouping
regex, throws a validation error on every other string, and hence every
constructed instance carries a string accepted by the regex. -/
theorem claim_C4 (constructorName s : String) :
    (looksLikeBase64Encoded s.toList = true →
      mkArtifact constructorName s =
        Except.ok { type := constructorName, base64EncodedValue := s }) ∧
    (looksLikeBase64Encoded s.toList = false →
      mkArtifact constructorName s =
        Except.error (ArtifactError.validationError constructorName s)) ∧
    (∀ a : Artifact, mkArtifact constructorName s = Except.ok a →
      looksLikeBase64Encoded a.base64EncodedValue.toList = true) := by
  refine ⟨fun h => ?_, fun h => ?_, fun a ha => ?_⟩
  · unfold mkArtifact
    rw [h]
    simp
  · unfold mkArtifact
    rw [h]
    simp
  · unfold mkArtifact at ha
    cases hls : looksLikeBase64Encoded s.toList with
    | false =>
      rw [hls] at ha
      simp at ha
    | true =>
      rw [hls] at ha
      simp at ha
      subst ha
      exact hls

/-- Witness for C4. -/
theorem claim_C4_witness :
    mkArtifact "Photo" "aGVsbG8=" =
      Except.ok { type := "Photo", base64EncodedValue := "aGVsbG8=" } ∧
    mkArtifact "Photo" "not base64" =
      Except.error (ArtifactError.validationError "Photo" "not base64") :=
  ⟨(claim_C4 "Photo" "aGVsbG8=").1 rfl, (claim_C4 "Photo" "not base64").2.1 rfl⟩

/-- C1: every transport rejection is classified by the `switch (true)`
cascade in priority order into exactly one outcome — timeout pattern, then
network-error pattern, then `TypeError`, then missing response payload — the
first two and the fourth rejecting with a `TestCompromisedError`, the third
with a `LogicError`, and in all four rejecting cases `lastResponse` is left
unchanged. -/
theorem claim_C1 (last : Option AxiosResponse) (rejected : AxiosRejection) :
    (timeoutExceededTest rejected.message.toList = true →
      captureResponseOf last (PromiseOutcome.rejected rejected) =
        (Except.error (CallError.testCompromised "The request has timed out" (some rejected)),
         last)) ∧
    (timeoutExceededTest rejected.message.toList = false →
      networkErrorTest rejected.message.toList = true →
      captureResponseOf last (PromiseOutcome.rejected rejected) =
        (Except.error (CallError.testCompromised "A network error has occurred" (some rejected)),
         last)) ∧
    (timeoutExceededTest rejected.message.toList = false →
      networkErrorTest rejected.message.toList = false →
      rejected.isTypeError = true →
      captureResponseOf last (PromiseOutcome.rejected rejected) =
        (Except.error
          (CallError.logicError "Looks like there was an issue with Axios configuration"
            (some rejected)),
         last)) ∧
    (timeoutExceededTest rejected.message.toList = false →
      networkErrorTest rejected.message.toList = false →
      rejected.isTypeError = false →
      rejected.response = none →
      captureResponseOf last (PromiseOutcome.rejected rejected) =
        (Except.error (CallError.testCompromised "The API call has failed" (some rejected)),
         last)) := by
  refine ⟨fun h1 => ?_, fun h1 h2 => ?_, fun h1 h2 h3 => ?_, fun h1 h2 h3 h4 => ?_⟩
  · simp only [captureResponseOf]
    rw [h1]
    simp
  · simp only [captureResponseOf]
    rw [h1, h2]
    simp
  · simp only [captureResponseOf]
    rw [h1, h2, h3]
    simp
  · simp only [captureResponseOf]
    rw [h1, h2, h3, h4]
    simp

/-- Witness for C1 at the timeout-pattern rejection of the spec. -/
theorem claim_C1_witness :
    captureResponseOf (some { status := 200, data := "ok" })
        (PromiseOutcome.rejected
          { message := "timeout of 2000ms exceeded", isTypeError := false, response := none }) =
      (Except.error
        (CallError.testCompromised "The request has timed out"
          (some { message := "timeout of 2000ms exceeded", isTypeError := false,
                  response := none })),
       some { status := 200, data := "ok" }) :=
  (claim_C1 (some { status := 200, data := "ok" })
    { message := "timeout of 2000ms exceeded", isTypeError := false, response := none }).1
    (by decide)

/-- C2: a rejection that escapes the first three classifications and carries
an HTTP response is a valid test outcome: `request` resolves with that
response, stores it as `lastResponse`, and a subsequent
`mapLastResponse(r => r.status)` returns its status. -/
theorem claim_C2 (api : CallAnApi) (transport : AxiosRequestConfig → PromiseOutcome)
    (config : AxiosRequestConfig) (rejected : AxiosRejection) (r : AxiosResponse)
    (ht : transport (mergeConfig api.axiosInstance.defaults config) =
      PromiseOutcome.rejected rejected)
    (h1 : timeoutExceededTest rejected.message.toList = false)
    (h2 : networkErrorTest rejected.message.toList = false)
    (h3 : rejected.isTypeError = false)
    (h4 : rejected.response = some r) :
    api.request transport config =
      (Except.ok r, { api with lastResponse := some r }) ∧
    ({ api with lastResponse := some r } : CallAnApi).mapLastResponse
        (fun resp => resp.status) = Except.ok r.status := by
  constructor
  · simp only [CallAnApi.request, AxiosInstance.request]
    rw [ht]
    simp only [captureResponseOf]
    rw [h1, h2, h3, h4]
    simp
  · rfl

/-- Witness for C2 at a 404 rejection. -/
theorem claim_C2_witness :
    (CallAnApi.atBaseURL "https://api.example").request
        (fun _ =>
          PromiseOutcome.rejected
            { message := "Request failed with status code 404", isTypeError := false,
              response := some { status := 404, data := "not found" } })
        emptyConfig =
      (Except.ok { status := 404, data := "not found" },
       { CallAnApi.atBaseURL "https://api.example" with
           lastResponse := some { status := 404, data := "not found" } }) ∧
    ({ CallAnApi.atBaseURL "https://api.example" with
         lastResponse := some { status := 404, data := "not found" } } : CallAnApi).mapLastResponse
        (fun resp => resp.status) = Except.ok 404 :=
  claim_C2 (CallAnApi.atBaseURL "https://api.example")
    (fun _ =>
      PromiseOutcome.rejected
        { message := "Request failed with status code 404", isTypeError := false,
          response := some { status := 404, data := "not found" } })
    emptyConfig
    { message := "Request failed with status code 404", isTypeError := false,
      response := some { status := 404, data := "not found" } }
    { status := 404, data := "not found" }
    rfl (by decide) (by decide) rfl rfl

theorem find?_map_overwrite (l : List (String × String)) (k v : String)
    (h : l.any (fun p => p.1 == k) = true) :
    (l.map (fun p => if p.1 == k then (k, v) else p)).find? (fun p => p.1 == k) =
      some (k, v) := by
  induction l with
  | nil => simp at h
  | cons q qs ih =>
    cases hq : (q.1 == k) with
    | true =>
      simp [List.find?, hq]
    | false =>
      have h' : qs.any (fun p => p.1 == k) = true := by
        simpa [List.any_cons, hq] using h
      have hmap : (if (q.1 == k) = true then (k, v) else q) = q := if_neg (by simp [hq])
      rw [List.map_cons, hmap, List.find?_cons_of_neg _ (by simp [hq]), ih h']

theorem find?_headers_none (l : List (String × String)) (k : String)
    (h : l.any (fun p => p.1 == k) = false) :
    l.find? (fun p => p.1 == k) = none := by
  rw [List.find?_eq_none]
  intro x hx
  have := List.any_eq_false.mp h x hx
  simpa using this

theorem getHeader_setHeader (cfg : AxiosRequestConfig) (k v : String) :
    getHeader (setHeader cfg k v) k = some v := by
  unfold getHeader setHeader
  cases hany : cfg.headers.any (fun p => p.1 == k) with
  | true =>
    simp only [hany, if_true]
    rw [find?_map_overwrite cfg.headers k v hany]
    rfl
  | false =>
    simp only [hany, Bool.false_eq_true, if_false]
    rw [List.find?_append, find?_headers_none cfg.headers k hany]
    simp [List.find?]

theorem merge_emptyConfig (d : AxiosRequestConfig) :
    mergeConfig d emptyConfig = d := by
  unfold mergeConfig emptyConfig
  simp

theorem toList_append (a b : String) : (a ++ b).toList = a.toList ++ b.toList := by
  exact String.data_append a b

theorem toList_eq_data (s : String) : s.toList = s.data := rfl

theorem joinCommaSpace_mem_split (t : String) (l : List String) (h : t ∈ l) :
    ∃ a b : List Char, (joinCommaSpace l).toList = a ++ (t.toList ++ b) := by
  induction l with
  | nil => cases h
  | cons x xs ih =>
    cases xs with
    | nil =>
      have hx : t = x := by simpa using h
      subst hx
      exact ⟨[], [], by simp [joinCommaSpace]⟩
    | cons u rest =>
      rcases List.mem_cons.mp h with h1 | h2
      · subst h1
        refine ⟨[], (", " ++ joinCommaSpace (u :: rest)).toList, ?_⟩
        simp [joinCommaSpace, toList_append]
      · obtain ⟨a, b, hab⟩ := ih h2
        simp only [toList_eq_data] at hab
        refine ⟨x.toList ++ ", ".toList ++ a, b, ?_⟩
        simp [joinCommaSpace, toList_append, toList_eq_data, hab]

/-- C8: `modifyConfig(fn)` rewrites the transport defaults with `fn` (the
model of the in-place mutation) while leaving the cached response alone, and
a subsequent `request({})` is issued to the transport with exactly the
mutated defaults as its effective configuration — in particular, after
setting header `k` to `v` the effective request carries header `k: v`. -/
theorem claim_C8 (api : CallAnApi) (k v : String) :
    (api.modifyConfig (fun cfg => setHeader cfg k v)).axiosInstance.defaults =
      setHeader api.axiosInstance.defaults k v ∧
    (api.modifyConfig (fun cfg => setHeader cfg k v)).lastResponse = api.lastResponse ∧
    (∀ transport : AxiosRequestConfig → PromiseOutcome,
      (api.modifyConfig (fun cfg => setHeader cfg k v)).axiosInstance.request transport
          emptyConfig =
        transport (setHeader api.axiosInstance.defaults k v)) ∧
    getHeader (setHeader api.axiosInstance.defaults k v) k = some v := by
  refine ⟨rfl, rfl, fun transport => ?_, getHeader_setHeader api.axiosInstance.defaults k v⟩
  simp only [AxiosInstance.request, CallAnApi.modifyConfig]
  rw [merge_emptyConfig]

/-- C3: for a registered variant and a string accepted by the base64
validation, serialising a freshly constructed artifact and deserialising the
envelope reconstructs the artifact with the same variant name and the same
`base64EncodedValue` (hence the same decoded content). -/
theorem claim_C3 (registry : ArtifactRegistry) (V s : String)
    (hV : V ∈ registry) (hs : looksLikeBase64Encoded s.toList = true) :
    mkArtifact V s = Except.ok { type := V, base64EncodedValue := s } ∧
    Artifact.fromJSON registry (Artifact.toJSON { type := V, base64EncodedValue := s }) =
      Except.ok { type := V, base64EncodedValue := s } := by
  have hmk : mkArtifact V s = Except.ok { type := V, base64EncodedValue := s } := by
    unfold mkArtifact
    rw [hs]
    simp
  refine ⟨hmk, ?_⟩
  simp only [Artifact.fromJSON, Artifact.toJSON]
  rw [ofType_eq_ite, if_pos hV]
  exact hmk

/-- Witness for C3 at a two-variant registry and a concrete payload. -/
theorem claim_C3_witness :
    mkArtifact "Photo" "aGVsbG8=" =
      Except.ok { type := "Photo", base64EncodedValue := "aGVsbG8=" } ∧
    Artifact.fromJSON ["Photo", "TextData"]
        (Artifact.toJSON { type := "Photo", base64EncodedValue := "aGVsbG8=" }) =
      Except.ok { type := "Photo", base64EncodedValue := "aGVsbG8=" } :=
  claim_C3 ["Photo", "TextData"] "Photo" "aGVsbG8=" (by decide) (by decide)

/-- C5: deserialising an envelope whose `type` is not registered fails with
a `LogicError` whose message contains the unrecognised type name and every
registered type name. -/
theorem claim_C5 (registry : ArtifactRegistry) (o : SerialisedArtifact)
    (h : o.type ∉ registry) :
    Artifact.fromJSON registry o =
      Except.error (ArtifactError.logicError (unknownTypeMessage o.type registry)) ∧
    containsSubstring o.type.toList (unknownTypeMessage o.type registry).toList = true ∧
    (∀ t ∈ registry,
      containsSubstring t.toList (unknownTypeMessage o.type registry).toList = true) := by
  refine ⟨?_, ?_, ?_⟩
  · simp only [Artifact.fromJSON]
    rw [ofType_eq_ite, if_neg h]
  · have hsplit : (unknownTypeMessage o.type registry).toList =
        "\n                Couldn\x27t de-serialise artifact of an unknown type.\n                ".toList ++
          (o.type.toList ++ (" is not one of the recognised types: ".toList ++
            ((joinCommaSpace registry).toList ++ "\n           ".toList))) := by
      simp [unknownTypeMessage, toList_append, toList_eq_data]
    rw [hsplit]
    exact containsSubstring_split _ _ _
  · intro t ht
    obtain ⟨a, b, hab⟩ := joinCommaSpace_mem_split t registry ht
    simp only [toList_eq_data] at hab
    have hsplit : (unknownTypeMessage o.type registry).toList =
        ("\n                Couldn\x27t de-serialise artifact of an unknown type.\n                ".toList ++
          (o.type.toList ++ (" is not one of the recognised types: ".toList ++ a))) ++
          (t.toList ++ (b ++ "\n           ".toList)) := by
      simp [unknownTypeMessage, toList_append, toList_eq_data, hab]
    rw [hsplit]
    exact containsSubstring_split _ _ _

/-- Witness for C5 at a concrete unregistered envelope type. -/
theorem claim_C5_witness :
    Artifact.fromJSON ["Photo", "TextData"]
        { type := "Nonsense", base64EncodedValue := "aGVsbG8=" } =
      Except.error
        (ArtifactError.logicError (unknownTypeMessage "Nonsense" ["Photo", "TextData"])) ∧
    containsSubstring "Nonsense".toList
        (unknownTypeMessage "Nonsense" ["Photo", "TextData"]).toList = true ∧
    containsSubstring "Photo".toList
        (unknownTypeMessage "Nonsense" ["Photo", "TextData"]).toList = true := by
  have h := claim_C5 ["Photo", "TextData"]
    { type := "Nonsense", base64EncodedValue := "aGVsbG8=" } (by decide)
  exact ⟨h.1, h.2.1, h.2.2 "Photo" (by decide)⟩
